import Mathlib

/-!
# Heimer main window: document lifecycle of `src/editor/mainwindow.cpp`

A shallow embedding of the handlers of `MainWindow` that change which of the
save / save-as / undo / redo actions are enabled, the window title and the
stored recent path, together with the effects they have on their
collaborators (mediator calls, message boxes, file dialogs, log lines).

Modelling choices:

* `QString` is a list of characters; `QString::endsWith` (case sensitive, on a
  non-null receiver) is the list-suffix test and `+` is list append.
* `Config::APPLICATION_NAME`, `Config::APPLICATION_VERSION`,
  `Config::FILE_EXTENSION` (from `config.hpp`), the translation function `tr`
  and the home location are parameters.
* The `Mediator` (from `mediator.hpp`) is a parameter: an arbitrary state type
  with one transition per member function called in this file; functions
  that return `bool` return the answer together with the next state.
  A mediator call acts on the mediator's own state; what the mediator does
  to the window through its reference to it is not part of this file.
* The results of the modal file dialogs are inputs of the handlers.
* Every observable effect is appended to a trace, in program order.
* Window geometry (`closeEvent`, `resizeEvent`, the size read in `init`) and
  the about dialogs touch none of the state above and are left out.
-/

namespace Heimer

/-- A Qt string, as the list of its characters. -/
abbrev QString := List Char

/-- Embeds `QString::endsWith(s)` with the default case sensitivity. -/
def endsWith (str s : QString) : Bool := s.isSuffixOf str

/-- The constants of `config.hpp` used by the main window. -/
structure Config where
  APPLICATION_NAME : QString
  APPLICATION_VERSION : QString
  FILE_EXTENSION : QString

/-- The member functions of `Mediator` that `MainWindow` calls, over an
arbitrary mediator state `σ`. -/
structure Mediator (σ : Type) where
  showHelloText : σ → σ
  initializeNewMindMap : σ → σ
  openMindMap : QString → σ → Bool × σ
  undo : σ → σ
  redo : σ → σ
  isUndoable : σ → Bool
  isRedoable : σ → Bool
  isSaved : σ → Bool
  saveMindMap : σ → Bool × σ
  saveMindMapAs : QString → σ → Bool × σ
  setupMindMapAfterUndoOrRedo : σ → σ

/-- Everything the handlers take from their surroundings. -/
structure Env (σ : Type) where
  config : Config
  tr : QString → QString
  homeLocation : QString
  mediator : Mediator σ

/-- Observable effects of the handlers, in the order they happen. -/
inductive Event where
  | logInfo (msg : QString)
  | logError (msg : QString)
  | showMessageBox (message : QString)
  | showErrorDialog (message : QString)
  | getOpenFileName (caption dir filter : QString)
  | getSaveFileName (caption dir filter : QString)
  | mediatorShowHelloText
  | mediatorInitializeNewMindMap
  | mediatorOpenMindMap (fileName : QString)
  | mediatorUndo
  | mediatorRedo
  | mediatorSaveMindMap
  | mediatorSaveMindMapAs (fileName : QString)
  | mediatorSetupMindMapAfterUndoOrRedo
  deriving DecidableEq, Repr

/-- The state owned by the main window: the enabled flags of the four
actions, the window title, the `recentPath` entry of the settings group
(absent until first written) and the file name given on the command line. -/
structure MainWindow where
  saveEnabled : Bool
  saveAsEnabled : Bool
  undoEnabled : Bool
  redoEnabled : Bool
  windowTitle : QString
  recentPath : Option QString
  argMindMapFile : QString
  deriving DecidableEq, Repr

/-- The window, its mediator and the effects observed so far. -/
structure World (σ : Type) where
  win : MainWindow
  med : σ
  trace : List Event

variable {σ : Type}

/-- Append one observable effect to the trace. -/
def emit (e : Event) (s : World σ) : World σ :=
  { s with trace := s.trace ++ [e] }

/-- Embeds `MainWindow::getFileDialogFileText`. -/
def getFileDialogFileText (env : Env σ) : QString :=
  env.tr "Heimer Files".toList ++ " (*".toList ++ env.config.FILE_EXTENSION ++ ")".toList

/-- The text `MainWindow::setTitle` hands to `setWindowTitle`. -/
def titleText (env : Env σ) (openFileName : QString) : QString :=
  env.config.APPLICATION_NAME ++ " ".toList ++ env.config.APPLICATION_VERSION ++
    " - ".toList ++ openFileName

/-- Embeds `MainWindow::setTitle`. -/
def setTitle (env : Env σ) (openFileName : QString) (s : World σ) : World σ :=
  { s with win := { s.win with windowTitle := titleText env openFileName } }

/-- Embeds `MainWindow::disableUndoAndRedo`. -/
def disableUndoAndRedo (s : World σ) : World σ :=
  { s with win := { s.win with undoEnabled := false, redoEnabled := false } }

/-- Embeds `MainWindow::enableUndo`. -/
def enableUndo (enable : Bool) (s : World σ) : World σ :=
  { s with win := { s.win with undoEnabled := enable } }

/-- Embeds `MainWindow::loadRecentPath`. -/
def loadRecentPath (env : Env σ) (s : World σ) : QString :=
  s.win.recentPath.getD env.homeLocation

/-- Embeds `MainWindow::saveRecentPath`. -/
def saveRecentPath (fileName : QString) (s : World σ) : World σ :=
  { s with win := { s.win with recentPath := some fileName } }

/-- Embeds `MainWindow::setSaveActionStatesOnNewMindMap`. -/
def setSaveActionStatesOnNewMindMap (s : World σ) : World σ :=
  { s with win := { s.win with saveEnabled := false, saveAsEnabled := true } }

/-- Embeds `MainWindow::successLog`. -/
def successLog (s : World σ) : World σ :=
  emit (.logInfo "Huge success!".toList) s

/-- Embeds `MainWindow::showMessageBox`. -/
def showMessageBox (message : QString) (s : World σ) : World σ :=
  emit (.showMessageBox message) s

/-- Embeds `MainWindow::showErrorDialog`; no function of the file calls it. -/
def showErrorDialog (message : QString) (s : World σ) : World σ :=
  emit (.showErrorDialog message) s

/-- The constructor followed by `MainWindow::init`: the title is set, the
mediator shows its hello text and `populateMenuBar` creates the four actions,
each disabled (`createFileMenu`, `addUndoAction`, `addRedoAction`).
`settings` is the stored `recentPath`, `m0` the freshly built mediator. -/
def init (env : Env σ) (mindMapFile : QString) (settings : Option QString) (m0 : σ) :
    World σ :=
  { win :=
      { saveEnabled := false
        saveAsEnabled := false
        undoEnabled := false
        redoEnabled := false
        windowTitle := titleText env (env.tr "New file".toList)
        recentPath := settings
        argMindMapFile := mindMapFile }
    med := env.mediator.showHelloText m0
    trace := [.mediatorShowHelloText] }

/-- Embeds `MainWindow::doOpenMindMap`. -/
def doOpenMindMap (env : Env σ) (fileName : QString) (s : World σ) : World σ :=
  let s := emit (.logInfo ("Opening \x27".toList ++ fileName)) s
  let r := env.mediator.openMindMap fileName s.med
  let s := emit (.mediatorOpenMindMap fileName) { s with med := r.2 }
  if r.1 then
    let s := disableUndoAndRedo s
    let s := setTitle env fileName s
    let s := saveRecentPath fileName s
    let s := setSaveActionStatesOnNewMindMap s
    successLog s
  else
    s

/-- Embeds `MainWindow::openArgMindMap`. -/
def openArgMindMap (env : Env σ) (s : World σ) : World σ :=
  doOpenMindMap env s.win.argMindMapFile s

/-- Embeds `MainWindow::openMindMap`; `fileName` is what the open dialog returns
(empty when the user cancels). -/
def openMindMap (env : Env σ) (fileName : QString) (s : World σ) : World σ :=
  let s := emit (.logInfo "Open file".toList) s
  let path := loadRecentPath env s
  let s := emit (.getOpenFileName (env.tr "Open File".toList) path (getFileDialogFileText env)) s
  if !fileName.isEmpty then
    doOpenMindMap env fileName s
  else
    s

/-- Embeds `MainWindow::setupMindMapAfterUndoOrRedo`. -/
def setupMindMapAfterUndoOrRedo (env : Env σ) (s : World σ) : World σ :=
  let s := { s with win := { s.win with saveEnabled := true } }
  let s := { s with win := { s.win with undoEnabled := env.mediator.isUndoable s.med } }
  let s := { s with win := { s.win with redoEnabled := env.mediator.isRedoable s.med } }
  let s := setSaveActionStatesOnNewMindMap s
  emit .mediatorSetupMindMapAfterUndoOrRedo
    { s with med := env.mediator.setupMindMapAfterUndoOrRedo s.med }

/-- The `undoHandler` closure of `MainWindow::createEditMenu`. -/
def undoHandler (env : Env σ) (s : World σ) : World σ :=
  let s := emit .mediatorUndo { s with med := env.mediator.undo s.med }
  setupMindMapAfterUndoOrRedo env s

/-- The `redoHandler` closure of `MainWindow::createEditMenu`. -/
def redoHandler (env : Env σ) (s : World σ) : World σ :=
  let s := emit .mediatorRedo { s with med := env.mediator.redo s.med }
  setupMindMapAfterUndoOrRedo env s

/-- The extension step of `MainWindow::saveMindMapAs`
(`if (!fileName.endsWith(FILE_EXTENSION)) fileName += FILE_EXTENSION;`). -/
def appendFileExtension (ext fileName : QString) : QString :=
  if !endsWith fileName ext then fileName ++ ext else fileName

/-- Embeds `MainWindow::saveMindMapAs`; `fileName` is what the save dialog returns
(empty when the user cancels). -/
def saveMindMapAs (env : Env σ) (fileName : QString) (s : World σ) : World σ :=
  let s := emit (.logInfo "Save as..".toList) s
  let s := emit (.getSaveFileName (env.tr "Save File As".toList) env.homeLocation
    (getFileDialogFileText env)) s
  if fileName.isEmpty then
    s
  else
    let fileName := appendFileExtension env.config.FILE_EXTENSION fileName
    let r := env.mediator.saveMindMapAs fileName s.med
    let s := emit (.mediatorSaveMindMapAs fileName) { s with med := r.2 }
    if r.1 then
      let msg := env.tr "File \x27".toList ++ fileName ++ env.tr "\x27 saved.".toList
      let s := emit (.logInfo msg) s
      let s := setTitle env fileName s
      successLog s
    else
      let msg := env.tr "Failed to save file as \x27".toList ++ fileName ++ "\x27.".toList
      let s := emit (.logError msg) s
      showMessageBox msg s

/-- Embeds `MainWindow::saveMindMap`; `fileName` is what the save dialog returns when
the handler falls through to `saveMindMapAs`. -/
def saveMindMap (env : Env σ) (fileName : QString) (s : World σ) : World σ :=
  let s := emit (.logInfo "Save..".toList) s
  if env.mediator.isSaved s.med then
    let r := env.mediator.saveMindMap s.med
    let s := emit .mediatorSaveMindMap { s with med := r.2 }
    if !r.1 then
      let msg := env.tr "Failed to save file.".toList
      let s := emit (.logError msg) s
      showMessageBox msg s
    else
      successLog s
  else
    saveMindMapAs env fileName s

/-- Embeds `MainWindow::initializeNewMindMap`. -/
def initializeNewMindMap (env : Env σ) (s : World σ) : World σ :=
  let s := emit (.logInfo "New file".toList) s
  let s := emit .mediatorInitializeNewMindMap
    { s with med := env.mediator.initializeNewMindMap s.med }
  let s := disableUndoAndRedo s
  let s := setSaveActionStatesOnNewMindMap s
  setTitle env (env.tr "New file".toList) s

/-- The handlers of the file that can run after construction, with the
inputs they take from the dialogs or from their caller. -/
inductive Handler where
  | initializeNewMindMap
  | openMindMap (dialogFileName : QString)
  | openArgMindMap
  | undo
  | redo
  | saveMindMap (dialogFileName : QString)
  | saveMindMapAs (dialogFileName : QString)
  | enableUndo (enable : Bool)
  deriving DecidableEq, Repr

/-- Run one handler. -/
def step (env : Env σ) (h : Handler) (s : World σ) : World σ :=
  match h with
  | .initializeNewMindMap => initializeNewMindMap env s
  | .openMindMap f => openMindMap env f s
  | .openArgMindMap => openArgMindMap env s
  | .undo => undoHandler env s
  | .redo => redoHandler env s
  | .saveMindMap f => saveMindMap env f s
  | .saveMindMapAs f => saveMindMapAs env f s
  | .enableUndo b => enableUndo b s

/-- Run a finite sequence of handlers, one after the other. -/
def run (env : Env σ) (hs : List Handler) (s : World σ) : World σ :=
  hs.foldl (fun s h => step env h s) s

/-! ## Concrete collaborators used to evaluate the handlers -/

/-- The configuration of the examples: extension `.heimer`. -/
def exampleConfig : Config :=
  { APPLICATION_NAME := "Heimer".toList
    APPLICATION_VERSION := "1.0".toList
    FILE_EXTENSION := ".heimer".toList }

/-- A mediator whose state is the answer it gives: every `bool` member
function returns the state, and no call changes it. -/
def constMediator : Mediator Bool :=
  { showHelloText := fun m => m
    initializeNewMindMap := fun m => m
    openMindMap := fun _ m => (m, m)
    undo := fun m => m
    redo := fun m => m
    isUndoable := fun m => m
    isRedoable := fun m => m
    isSaved := fun _ => true
    saveMindMap := fun m => (m, m)
    saveMindMapAs := fun _ m => (m, m)
    setupMindMapAfterUndoOrRedo := fun m => m }

/-- An environment without translation, over `constMediator`. -/
def exampleEnv : Env Bool :=
  { config := exampleConfig
    tr := fun t => t
    homeLocation := "/home/user".toList
    mediator := constMediator }

/-- The world right after construction, with no stored recent path, no file
on the command line and a mediator answering `answer`. -/
def exampleWorld (answer : Bool) : World Bool :=
  init exampleEnv [] none answer

/-- The world of a document under edit: as `exampleWorld`, with the save and
save-as actions both enabled. -/
def editedWorld (answer : Bool) : World Bool :=
  { exampleWorld answer with
    win := { (exampleWorld answer).win with saveEnabled := true, saveAsEnabled := true } }

/-- The file names handed to the mediator's `saveMindMapAs`, in call order. -/
def savedAsPaths (t : List Event) : List QString :=
  t.filterMap fun e =>
    match e with
    | .mediatorSaveMindMapAs fileName => some fileName
    | _ => none

/-- After `setupMindMapAfterUndoOrRedo` the save action is disabled. -/
theorem undoRedo_save_off (env : Env σ) (s : World σ) :
    (undoHandler env s).win.saveEnabled = false ∧
    (redoHandler env s).win.saveEnabled = false := by
  simp [undoHandler, redoHandler, setupMindMapAfterUndoOrRedo,
    setSaveActionStatesOnNewMindMap, emit]

/-- C1 (evaluation of the code): the undo handler and the redo handler leave
the window with the save action disabled and save-as enabled, the undo and
redo flags taken from the mediator, and title, recent path and command-line
file as before: `setupMindMapAfterUndoOrRedo` enables save and then calls
`setSaveActionStatesOnNewMindMap`, which disables it again. So it is after
opening `/tmp/a.heimer`, an edit that enables undo, and the undo handler. -/
theorem undoRedo_leaves_save_disabled (env : Env σ) (s : World σ) :
    (undoHandler env s).win =
      { s.win with
        saveEnabled := false
        saveAsEnabled := true
        undoEnabled := env.mediator.isUndoable (env.mediator.undo s.med)
        redoEnabled := env.mediator.isRedoable (env.mediator.undo s.med) } ∧
    (redoHandler env s).win =
      { s.win with
        saveEnabled := false
        saveAsEnabled := true
        undoEnabled := env.mediator.isUndoable (env.mediator.redo s.med)
        redoEnabled := env.mediator.isRedoable (env.mediator.redo s.med) } ∧
    (run exampleEnv [.openMindMap "/tmp/a.heimer".toList, .enableUndo true, .undo]
      (exampleWorld true)).win.saveEnabled = false := by
  refine ⟨?_, ?_, by decide⟩ <;>
    simp [undoHandler, redoHandler, setupMindMapAfterUndoOrRedo,
      setSaveActionStatesOnNewMindMap, emit]

/-- C4: after the undo (redo) handler the undo flag is what
`mediator.isUndoable()` answers on the mediator state reached by the
mediator's undo (redo), and the redo flag is what `mediator.isRedoable()`
answers on that same state; replacing the window state before the handler by
any other one gives the same two flags. -/
theorem undoRedo_flags_mirror_mediator (env : Env σ) (s : World σ) (w : MainWindow) :
    (undoHandler env s).win.undoEnabled = env.mediator.isUndoable (env.mediator.undo s.med) ∧
    (undoHandler env s).win.redoEnabled = env.mediator.isRedoable (env.mediator.undo s.med) ∧
    (redoHandler env s).win.undoEnabled = env.mediator.isUndoable (env.mediator.redo s.med) ∧
    (redoHandler env s).win.redoEnabled = env.mediator.isRedoable (env.mediator.redo s.med) ∧
    (undoHandler env { s with win := w }).win.undoEnabled = (undoHandler env s).win.undoEnabled ∧
    (undoHandler env { s with win := w }).win.redoEnabled = (undoHandler env s).win.redoEnabled ∧
    (redoHandler env { s with win := w }).win.undoEnabled = (redoHandler env s).win.undoEnabled ∧
    (redoHandler env { s with win := w }).win.redoEnabled = (redoHandler env s).win.redoEnabled := by
  simp [undoHandler, redoHandler, setupMindMapAfterUndoOrRedo,
    setSaveActionStatesOnNewMindMap, emit]

/-! ## New and open -/

/-- C2: after `initializeNewMindMap` undo, redo and save are disabled,
save-as is enabled and the title is the one built from the translated
"New file" text, for every previous state and every mediator. -/
theorem initializeNewMindMap_resets (env : Env σ) (s : World σ) :
    (initializeNewMindMap env s).win.undoEnabled = false ∧
    (initializeNewMindMap env s).win.redoEnabled = false ∧
    (initializeNewMindMap env s).win.saveEnabled = false ∧
    (initializeNewMindMap env s).win.saveAsEnabled = true ∧
    (initializeNewMindMap env s).win.windowTitle = titleText env (env.tr "New file".toList) := by
  simp [initializeNewMindMap, setTitle, setSaveActionStatesOnNewMindMap,
    disableUndoAndRedo, emit]

/-- C3: when the mediator reports that opening `p` succeeded, after
`doOpenMindMap p` undo, redo and save are disabled, save-as is enabled, the
title is the one built from `p` and the stored recent path is `p`. -/
theorem doOpenMindMap_success (env : Env σ) (p : QString) (s : World σ)
    (_hne : p ≠ []) (hok : (env.mediator.openMindMap p s.med).1 = true) :
    (doOpenMindMap env p s).win.undoEnabled = false ∧
    (doOpenMindMap env p s).win.redoEnabled = false ∧
    (doOpenMindMap env p s).win.saveEnabled = false ∧
    (doOpenMindMap env p s).win.saveAsEnabled = true ∧
    (doOpenMindMap env p s).win.windowTitle = titleText env p ∧
    (doOpenMindMap env p s).win.recentPath = some p := by
  simp [doOpenMindMap, hok, successLog, setTitle, saveRecentPath,
    setSaveActionStatesOnNewMindMap, disableUndoAndRedo, emit]

/-- Witness of C3: opening `/tmp/a.heimer` with a mediator that succeeds. -/
theorem doOpenMindMap_success_witness :
    (doOpenMindMap exampleEnv "/tmp/a.heimer".toList (exampleWorld true)).win.saveAsEnabled = true ∧
    (doOpenMindMap exampleEnv "/tmp/a.heimer".toList (exampleWorld true)).win.recentPath =
      some "/tmp/a.heimer".toList :=
  have h := doOpenMindMap_success exampleEnv "/tmp/a.heimer".toList (exampleWorld true)
    (by decide) rfl
  ⟨h.2.2.2.1, h.2.2.2.2.2⟩

/-! ## Save and save-as -/

/-- The list-suffix reading of `endsWith`. -/
theorem endsWith_iff (str s : QString) : endsWith str s = true ↔ s <:+ str := by
  simp [endsWith]

/-- C5: for a non-empty dialog result `f`, `saveMindMapAs` hands exactly one
path to the mediator's `saveMindMapAs`, namely `appendFileExtension ext f`;
that path ends with `ext`, is `f` when `f` already ends with `ext` and
`f ++ ext` otherwise, and normalising it again changes nothing; `/tmp/b`
with `.heimer` gives `/tmp/b.heimer`. -/
theorem saveMindMapAs_path_normalised (env : Env σ) (f : QString) (s : World σ)
    (hne : f ≠ []) :
    savedAsPaths (saveMindMapAs env f s).trace =
      savedAsPaths s.trace ++ [appendFileExtension env.config.FILE_EXTENSION f] ∧
    endsWith (appendFileExtension env.config.FILE_EXTENSION f) env.config.FILE_EXTENSION = true ∧
    (endsWith f env.config.FILE_EXTENSION = true →
      appendFileExtension env.config.FILE_EXTENSION f = f) ∧
    (endsWith f env.config.FILE_EXTENSION = false →
      appendFileExtension env.config.FILE_EXTENSION f = f ++ env.config.FILE_EXTENSION) ∧
    appendFileExtension env.config.FILE_EXTENSION
        (appendFileExtension env.config.FILE_EXTENSION f) =
      appendFileExtension env.config.FILE_EXTENSION f ∧
    appendFileExtension ".heimer".toList "/tmp/b".toList = "/tmp/b.heimer".toList := by
  have hends : endsWith (appendFileExtension env.config.FILE_EXTENSION f)
      env.config.FILE_EXTENSION = true := by
    unfold appendFileExtension
    by_cases h : endsWith f env.config.FILE_EXTENSION = true
    · simp [h]
    · simp only [h, Bool.not_eq_true] at *
      simp [endsWith_iff, h]
  refine ⟨?_, hends, ?_, ?_, ?_, by decide⟩
  · have hf : f.isEmpty = false := by
      cases f with
      | nil => exact absurd rfl hne
      | cons a l => rfl
    unfold saveMindMapAs
    simp only [hf]
    cases hr : (env.mediator.saveMindMapAs
        (appendFileExtension env.config.FILE_EXTENSION f) s.med).1 <;>
      simp [hr, savedAsPaths, emit, successLog, showMessageBox, setTitle, List.filterMap_append]
  · intro h
    simp [appendFileExtension, h]
  · intro h
    simp [appendFileExtension, h]
  · have key : ∀ g : QString, endsWith g env.config.FILE_EXTENSION = true →
        appendFileExtension env.config.FILE_EXTENSION g = g := by
      intro g h
      simp [appendFileExtension, h]
    exact key _ hends

/-- Witness of C5: `/tmp/b` chosen in the dialog, extension `.heimer`. -/
theorem saveMindMapAs_path_normalised_witness :
    savedAsPaths (saveMindMapAs exampleEnv "/tmp/b".toList (exampleWorld true)).trace =
      [] ++ ["/tmp/b.heimer".toList] :=
  (saveMindMapAs_path_normalised exampleEnv "/tmp/b".toList (exampleWorld true)
    (by decide)).1

/-- C6 fails as stated: with a document that has a path and a mediator whose
save succeeds, `saveMindMap` run right after construction leaves save-as
disabled, and run with the save action enabled leaves save enabled. -/
theorem saveMindMap_success_counterexample :
    exampleEnv.mediator.isSaved (exampleWorld true).med = true ∧
    (exampleEnv.mediator.saveMindMap (exampleWorld true).med).1 = true ∧
    (saveMindMap exampleEnv [] (exampleWorld true)).win.saveAsEnabled = false ∧
    (saveMindMap exampleEnv [] (editedWorld true)).win.saveEnabled = true := by
  decide

/-- C6, amended: when the document has a path and the mediator's save
succeeds, `saveMindMap` calls the mediator's plain save and nothing else of
the mediator (no save-as, no dialog, no message box), and the window state,
so each of the four enabled flags, is what it was before the call. -/
theorem saveMindMap_success (env : Env σ) (d : QString) (s : World σ)
    (hsaved : env.mediator.isSaved s.med = true)
    (hok : (env.mediator.saveMindMap s.med).1 = true) :
    (saveMindMap env d s).trace =
      s.trace ++ [.logInfo "Save..".toList, .mediatorSaveMindMap,
        .logInfo "Huge success!".toList] ∧
    (saveMindMap env d s).med = (env.mediator.saveMindMap s.med).2 ∧
    (saveMindMap env d s).win = s.win := by
  simp [saveMindMap, emit, successLog, hsaved, hok]

/-- Witness of C6, amended: a successful save while save is disabled and
save-as enabled (right after a successful open) leaves them so. -/
theorem saveMindMap_success_witness :
    (saveMindMap exampleEnv []
        (doOpenMindMap exampleEnv "/tmp/a.heimer".toList (exampleWorld true))).win =
      (doOpenMindMap exampleEnv "/tmp/a.heimer".toList (exampleWorld true)).win :=
  (saveMindMap_success exampleEnv []
    (doOpenMindMap exampleEnv "/tmp/a.heimer".toList (exampleWorld true)) rfl rfl).2.2

/-- C7 fails as stated: a successful save-as of `/tmp/b` right after
construction leaves save-as disabled and the stored recent path absent, and
run with the save action enabled leaves save enabled. -/
theorem saveMindMapAs_success_counterexample :
    (exampleEnv.mediator.saveMindMapAs
      (appendFileExtension exampleEnv.config.FILE_EXTENSION "/tmp/b".toList)
      (exampleWorld true).med).1 = true ∧
    (saveMindMapAs exampleEnv "/tmp/b".toList (exampleWorld true)).win.saveAsEnabled = false ∧
    (saveMindMapAs exampleEnv "/tmp/b".toList (exampleWorld true)).win.recentPath = none ∧
    (saveMindMapAs exampleEnv "/tmp/b".toList (editedWorld true)).win.saveEnabled = true := by
  decide

/-- C7, amended: when the mediator's `saveMindMapAs` succeeds on the
normalised path, the window state after `saveMindMapAs` is the state before
with only the title replaced by the title built from the normalised path: the
four enabled flags and the stored recent path are unchanged. -/
theorem saveMindMapAs_success (env : Env σ) (f : QString) (s : World σ)
    (hne : f ≠ [])
    (hok : (env.mediator.saveMindMapAs
      (appendFileExtension env.config.FILE_EXTENSION f) s.med).1 = true) :
    (saveMindMapAs env f s).win =
      { s.win with
        windowTitle := titleText env (appendFileExtension env.config.FILE_EXTENSION f) } ∧
    (saveMindMapAs env f s).win.saveEnabled = s.win.saveEnabled ∧
    (saveMindMapAs env f s).win.saveAsEnabled = s.win.saveAsEnabled ∧
    (saveMindMapAs env f s).win.recentPath = s.win.recentPath := by
  have hf : f.isEmpty = false := by
    cases f with
    | nil => exact absurd rfl hne
    | cons a l => rfl
  simp [saveMindMapAs, emit, successLog, setTitle, hf, hok]

/-- Witness of C7, amended: saving `/tmp/b` as `/tmp/b.heimer`. -/
theorem saveMindMapAs_success_witness :
    (saveMindMapAs exampleEnv "/tmp/b".toList (exampleWorld true)).win.saveAsEnabled =
      (exampleWorld true).win.saveAsEnabled :=
  (saveMindMapAs_success exampleEnv "/tmp/b".toList (exampleWorld true)
    (by decide) rfl).2.2.1

/-! ## Failures -/

/-- C8: when the mediator reports failure in `doOpenMindMap`, in
`saveMindMap` for a document that has a path, or in `saveMindMapAs`, the
window state (the four enabled flags, the title, the stored recent path) is
after the handler what it was before. -/
theorem failure_leaves_window_unchanged (env : Env σ) (p d f : QString) (s : World σ) :
    ((env.mediator.openMindMap p s.med).1 = false → (doOpenMindMap env p s).win = s.win) ∧
    (env.mediator.isSaved s.med = true → (env.mediator.saveMindMap s.med).1 = false →
      (saveMindMap env d s).win = s.win) ∧
    (f ≠ [] →
      (env.mediator.saveMindMapAs
        (appendFileExtension env.config.FILE_EXTENSION f) s.med).1 = false →
      (saveMindMapAs env f s).win = s.win) := by
  refine ⟨?_, ?_, ?_⟩
  · intro h
    simp [doOpenMindMap, emit, h]
  · intro hsaved h
    simp [saveMindMap, emit, showMessageBox, hsaved, h]
  · intro hne h
    have hf : f.isEmpty = false := by
      cases f with
      | nil => exact absurd rfl hne
      | cons a l => rfl
    simp [saveMindMapAs, emit, showMessageBox, hf, h]

/-- Witness of C8: the three handlers against a mediator that fails, on a
document under edit. -/
theorem failure_leaves_window_unchanged_witness :
    (doOpenMindMap exampleEnv "/tmp/a.heimer".toList (editedWorld false)).win =
      (editedWorld false).win ∧
    (saveMindMap exampleEnv [] (editedWorld false)).win = (editedWorld false).win ∧
    (saveMindMapAs exampleEnv "/tmp/b".toList (editedWorld false)).win =
      (editedWorld false).win :=
  have h := failure_leaves_window_unchanged exampleEnv "/tmp/a.heimer".toList []
    "/tmp/b".toList (editedWorld false)
  ⟨h.1 rfl, h.2.1 rfl rfl, h.2.2 (by decide) rfl⟩

/-- No handler enables the save action for longer than its own run. -/
theorem step_saveEnabled (env : Env σ) (h : Handler) (s : World σ)
    (hs : s.win.saveEnabled = false) : (step env h s).win.saveEnabled = false := by
  cases h with
  | initializeNewMindMap =>
    simp [step, initializeNewMindMap, setTitle, setSaveActionStatesOnNewMindMap,
      disableUndoAndRedo, emit]
  | openMindMap f =>
    simp only [step, openMindMap, doOpenMindMap]
    split <;> [split; skip] <;>
      simp [successLog, setTitle, saveRecentPath, setSaveActionStatesOnNewMindMap,
        disableUndoAndRedo, emit, hs]
  | openArgMindMap =>
    simp only [step, openArgMindMap, doOpenMindMap]
    split <;>
      simp [successLog, setTitle, saveRecentPath, setSaveActionStatesOnNewMindMap,
        disableUndoAndRedo, emit, hs]
  | undo => exact (undoRedo_save_off env s).1
  | redo => exact (undoRedo_save_off env s).2
  | saveMindMap f =>
    simp only [step, saveMindMap, saveMindMapAs]
    repeat' split
    all_goals simp [successLog, showMessageBox, setTitle, emit, hs]
  | saveMindMapAs f =>
    simp only [step, saveMindMapAs]
    repeat' split
    all_goals simp [successLog, showMessageBox, setTitle, emit, hs]
  | enableUndo b => simp [step, enableUndo, hs]

/-- No handler disables the save-as action. -/
theorem step_saveAsEnabled (env : Env σ) (h : Handler) (s : World σ)
    (hs : s.win.saveAsEnabled = true) : (step env h s).win.saveAsEnabled = true := by
  cases h with
  | initializeNewMindMap =>
    simp [step, initializeNewMindMap, setTitle, setSaveActionStatesOnNewMindMap,
      disableUndoAndRedo, emit]
  | openMindMap f =>
    simp only [step, openMindMap, doOpenMindMap]
    split <;> [split; skip] <;>
      simp [successLog, setTitle, saveRecentPath, setSaveActionStatesOnNewMindMap,
        disableUndoAndRedo, emit, hs]
  | openArgMindMap =>
    simp only [step, openArgMindMap, doOpenMindMap]
    split <;>
      simp [successLog, setTitle, saveRecentPath, setSaveActionStatesOnNewMindMap,
        disableUndoAndRedo, emit, hs]
  | undo =>
    simp [step, undoHandler, setupMindMapAfterUndoOrRedo, setSaveActionStatesOnNewMindMap, emit]
  | redo =>
    simp [step, redoHandler, setupMindMapAfterUndoOrRedo, setSaveActionStatesOnNewMindMap, emit]
  | saveMindMap f =>
    simp only [step, saveMindMap, saveMindMapAs]
    repeat' split
    all_goals simp [successLog, showMessageBox, setTitle, emit, hs]
  | saveMindMapAs f =>
    simp only [step, saveMindMapAs]
    repeat' split
    all_goals simp [successLog, showMessageBox, setTitle, emit, hs]
  | enableUndo b => simp [step, enableUndo, hs]

/-- The save action stays disabled along any run that starts with it disabled. -/
theorem run_saveEnabled (env : Env σ) (hs : List Handler) (s : World σ)
    (h : s.win.saveEnabled = false) : (run env hs s).win.saveEnabled = false := by
  induction hs generalizing s with
  | nil => exact h
  | cons a l ih => exact ih (step env a s) (step_saveEnabled env a s h)

/-- The save-as action stays enabled along any run that starts with it enabled. -/
theorem run_saveAsEnabled (env : Env σ) (hs : List Handler) (s : World σ)
    (h : s.win.saveAsEnabled = true) : (run env hs s).win.saveAsEnabled = true := by
  induction hs generalizing s with
  | nil => exact h
  | cons a l ih => exact ih (step env a s) (step_saveAsEnabled env a s h)

/-- Running a concatenation is running the parts in turn. -/
theorem run_append (env : Env σ) (hs hs' : List Handler) (s : World σ) :
    run env (hs ++ hs') s = run env hs' (run env hs s) := by
  simp [run, List.foldl_append]

/-- C10: the constructor leaves save, save-as, undo and redo disabled; after
every finite sequence `hs` of handlers run from there, with any mediator, the
save action is disabled, and if save-as is enabled after `hs` it is enabled
after every continuation `hs ++ hs'`. -/
theorem reachable_save_disabled_saveAs_stays_enabled (env : Env σ)
    (mindMapFile : QString) (settings : Option QString) (m0 : σ) (hs hs' : List Handler) :
    ((init env mindMapFile settings m0).win.saveEnabled = false ∧
      (init env mindMapFile settings m0).win.saveAsEnabled = false ∧
      (init env mindMapFile settings m0).win.undoEnabled = false ∧
      (init env mindMapFile settings m0).win.redoEnabled = false) ∧
    (run env hs (init env mindMapFile settings m0)).win.saveEnabled = false ∧
    ((run env hs (init env mindMapFile settings m0)).win.saveAsEnabled = true →
      (run env (hs ++ hs') (init env mindMapFile settings m0)).win.saveAsEnabled = true) := by
  refine ⟨⟨rfl, rfl, rfl, rfl⟩, run_saveEnabled env hs _ rfl, ?_⟩
  intro h
  rw [run_append]
  exact run_saveAsEnabled env hs' _ h

/-- Witness of C10: open a file, then undo, save as and create a new map. -/
theorem reachable_save_disabled_saveAs_stays_enabled_witness :
    (run exampleEnv [.openMindMap "/tmp/a.heimer".toList, .undo]
      (init exampleEnv [] none true)).win.saveEnabled = false ∧
    (run exampleEnv
      ([.openMindMap "/tmp/a.heimer".toList, .undo] ++
        [.saveMindMapAs "/tmp/b".toList, .enableUndo true, .initializeNewMindMap])
      (init exampleEnv [] none true)).win.saveAsEnabled = true :=
  have h := reachable_save_disabled_saveAs_stays_enabled exampleEnv [] none true
    [.openMindMap "/tmp/a.heimer".toList, .undo]
    [.saveMindMapAs "/tmp/b".toList, .enableUndo true, .initializeNewMindMap]
  ⟨h.2.1, h.2.2 (by decide)⟩

end Heimer
